import Mathlib

/- Verification of the `logger` repository: a shallow embedding of
   `logger.h` (Logger::StrFormat, FileLogger::Print), `file.h`
   (file::File, file::Mkdirs) and `utils.h` (the pluggable error
   handler and the SPIEL_CHECK_* assertion macros), together with
   theorems settling the specification claims.

   Strings are modelled as `List Char`; machine file offsets and
   lengths as `Nat` (all offsets in play are non-negative); the calls
   into the operating system (stat, mkdir, fwrite, fflush) as explicit
   state on small structures. -/

set_option maxHeartbeats 1000000

/-! ## String-search helpers (used to state "the diagnostic contains ...") -/

/-- Does `p` occur at the very start of `l`? -/
def isSubAt : List Char → List Char → Bool
  | [], _ => true
  | _ :: _, [] => false
  | c :: p, d :: l => (c == d) && isSubAt p l

/-- Does `p` occur contiguously anywhere inside `l`? -/
def occursIn (p : List Char) : List Char → Bool
  | [] => p.isEmpty
  | c :: l => isSubAt p (c :: l) || occursIn p l

/-! ## logger.h : Logger::StrFormat

`Logger::StrFormat(oss, format, value, args...)` looks for the first
occurrence of the two-character token "\x7b\x7d" in `format`
(`format.find("\x7b\x7d")`); if found it streams the text before the
token and the value, then recurses on the rest of the format with the
remaining arguments; otherwise it streams the whole format (dropping
the remaining arguments).  The zero-argument overload streams the
format unchanged.  Arguments are modelled already rendered
(`operator<<` output), as `List Char`. -/

/-- Index of the first occurrence of the token "\x7b\x7d"
(`std::string::find`). -/
def findBrace : List Char → Option Nat
  | c :: d :: rest =>
    if c = '\x7b' ∧ d = '\x7d' then some 0
    else (findBrace (d :: rest)).map (· + 1)
  | _ => none

/-- `Logger::StrFormat`, both overloads (the `args = []` case is the
zero-argument overload at logger.h:31). -/
def StrFormat : List Char → List (List Char) → List Char
  | format, [] => format
  | format, value :: args =>
    match findBrace format with
    | some pos => format.take pos ++ value ++ StrFormat (format.drop (pos + 2)) args
    | none => format

namespace file

/-! ## file.h : class File

The C library stream is modelled by its buffered byte content
(`data`), the bytes so far handed to the operating system by fflush
(`osData`), and the current offset.  `std::fopen` and I/O failures are
outside the model: each primitive performs the successful behaviour of
the corresponding stdio call on the state. -/

structure File where
  data : List Char
  osData : List Char
  offset : Nat

/-- A freshly opened, empty file ("w" mode truncates). -/
def freshFile : File := ⟨[], [], 0⟩

/-- `File::Flush`: `std::fflush` hands the buffered content to the OS. -/
def File.Flush (f : File) : File × Bool := (⟨f.data, f.data, f.offset⟩, true)

/-- `File::Tell`: `std::ftell`. -/
def File.Tell (f : File) : Nat := f.offset

/-- `File::Seek`: `std::fseek(fd, offset, SEEK_SET)`. -/
def File.Seek (f : File) (offset : Nat) : File × Bool :=
  (⟨f.data, f.osData, offset⟩, true)

/-- `File::Read(count)`: `std::fread` reads up to `count` bytes from the
current offset and advances the offset by the number of bytes actually
read (`out.resize(read)`). -/
def File.Read (f : File) (count : Nat) : File × List Char :=
  let out := (f.data.drop f.offset).take count
  (⟨f.data, f.osData, f.offset + out.length⟩, out)

/-- `File::Write`: `std::fwrite` of the whole string at the current
offset; returns whether every byte was accepted. -/
def File.Write (f : File) (str : List Char) : File × Bool :=
  (⟨f.data.take f.offset ++ str ++ f.data.drop (f.offset + str.length),
    f.osData, f.offset + str.length⟩, true)

/-- `File::Length`: remembers `ftell`, seeks to the end, reads `ftell`
there, seeks back to the remembered offset, and returns the length. -/
def File.Length (f : File) : File × Nat :=
  let current := f.offset
  let atEnd : File := ⟨f.data, f.osData, f.data.length⟩
  let length := atEnd.offset
  let restored : File := ⟨atEnd.data, atEnd.osData, current⟩
  (restored, length)

/-- `File::ReadContents`: `Seek(0); return Read(Length());`. -/
def File.ReadContents (f : File) : File × List Char :=
  let f1 := (File.Seek f 0).1
  let r := File.Length f1
  File.Read r.1 r.2

/-! ## file.h : Mkdirs

The filesystem visible to `Mkdirs` is modelled by `stat` (for each
path: `none` if stat fails, `some true` for a directory —
`info.st_mode & S_IFDIR` set — and `some false` otherwise) and by a
`canCreate` oracle saying whether `mkdir` on that path succeeds
(permission errors etc.).  A successful `mkdir` makes the path a
directory. -/

structure FS where
  stat : List Char → Option Bool
  canCreate : List Char → Bool

/-- Effect of a successful `mkdir(path, mode)`. -/
def FS.create (fs : FS) (path : List Char) : FS :=
  { fs with stat := fun q => if q = path then some true else fs.stat q }

/-- Is `c` one of the separators in `"\\/"` (`find_first_of`)? -/
def isSep (c : Char) : Bool := c = '\\' || c = '/'

/-- Index of the first separator in a list, if any. -/
def findSepIdx : List Char → Option Nat
  | [] => none
  | c :: rest => if isSep c then some 0 else (findSepIdx rest).map (· + 1)

/-- `path.find_first_of("\\/", start)`. -/
def findFirstOf (s : List Char) (start : Nat) : Option Nat :=
  (findSepIdx (s.drop start)).map (· + start)

/-- The body of the `while (pos != std::string::npos)` loop of `Mkdirs`,
entered with the current value of `pos`.  Each iteration computes
`pos = path.find_first_of("\\/", pos + 1)` and processes
`sub_path = path.substr(0, pos)` (the whole path when `pos == npos`,
after which the loop exits).  `fuel` bounds the number of remaining
iterations that find a separator; since each found position is strictly
larger than the previous one and below `path.length`, the fuel
`path.length` used by `Mkdirs` is never exhausted (the `0` branch is
unreachable). -/
def MkdirsLoop (fs : FS) (path : List Char) (pos fuel : Nat) : FS × Bool :=
  match findFirstOf path (pos + 1) with
  | none =>
    -- last iteration: sub_path = path.substr(0, npos) = path
    match fs.stat path with
    | some true => (fs, true)
    | some false => (fs, false)
    | none => if fs.canCreate path then (fs.create path, true) else (fs, false)
  | some p =>
    match fuel with
    | 0 => (fs, true)
    | fuel' + 1 =>
      let sub := path.take p
      match fs.stat sub with
      | some true => MkdirsLoop fs path p fuel'
      | some false => (fs, false)
      | none =>
        if fs.canCreate sub then MkdirsLoop (fs.create sub) path p fuel'
        else (fs, false)

/-- `file::Mkdirs(path, mode)`: the loop starting at `pos = 0`. -/
def Mkdirs (fs : FS) (path : List Char) : FS × Bool :=
  MkdirsLoop fs path 0 path.length

/-- The successive values of `sub_path` seen by the `Mkdirs` loop,
starting from a given `pos` (same iteration structure and fuel as
`MkdirsLoop`). -/
def SubPathsLoop (path : List Char) (pos fuel : Nat) : List (List Char) :=
  match findFirstOf path (pos + 1) with
  | none => [path]
  | some p =>
    match fuel with
    | 0 => []
    | fuel' + 1 => path.take p :: SubPathsLoop path p fuel'

/-- All `sub_path` prefixes processed by `Mkdirs`. -/
def SubPaths (path : List Char) : List (List Char) :=
  SubPathsLoop path 0 path.length

/-- Modelled on the spec's words for `CreateDirectories`: walk the
prefixes of the path in order; for each prefix, if it already exists as
a directory continue, if it exists but is not a directory fail,
otherwise create it, stopping with failure on the first creation
error (already-created prefixes are left behind in the state). -/
def CreateDirectoriesSpec (fs : FS) : List (List Char) → FS × Bool
  | [] => (fs, true)
  | p :: rest =>
    match fs.stat p with
    | some true => CreateDirectoriesSpec fs rest
    | some false => (fs, false)
    | none =>
      if fs.canCreate p then CreateDirectoriesSpec (fs.create p) rest
      else (fs, false)

/-- Example filesystem: `/tmp` is a directory and `/tmp/a` is a plain
file. -/
def fsFileComp : FS :=
  { stat := fun q =>
      if q = ("/tmp").toList then some true
      else if q = ("/tmp/a").toList then some false
      else none,
    canCreate := fun _ => true }

/-- Example filesystem: `/tmp` is a directory, nothing else exists, and
`mkdir` succeeds only on `/tmp/a` (e.g. permissions forbid creating
`/tmp/a/b`). -/
def fsPermComp : FS :=
  { stat := fun q => if q = ("/tmp").toList then some true else none,
    canCreate := fun q => q = ("/tmp/a").toList }

/-- Example filesystem: a clean tree in which only `/tmp` exists and
every `mkdir` succeeds. -/
def cleanFs : FS :=
  { stat := fun q => if q = ("/tmp").toList then some true else none,
    canCreate := fun _ => true }

end file

/-! ## utils.h : error handler and SpielFatalError

The process-wide mutable `error_handler` pointer is modelled as
explicit state.  A handler maps a message to the lines it prints on
standard error and `some code` if it terminates the process with
`exit(code)`, or `none` if it returns.  `SpielFatalError` always ends
in termination: its result is the full stderr output plus the exit
code of the process. -/

def ErrorHandler : Type := List Char → List (List Char) × Option Nat

/-- `SpielDefaultErrorHandler`: prints `Spiel Fatal Error: <msg>` to
standard error and calls `std::exit(1)`. -/
def SpielDefaultErrorHandler : ErrorHandler :=
  fun error_msg => ([("Spiel Fatal Error: ").toList ++ error_msg], some 1)

/-- The process-wide mutable state: the active `error_handler`. -/
structure RuntimeState where
  error_handler : ErrorHandler

/-- The initial state: `ErrorHandler error_handler = SpielDefaultErrorHandler;`. -/
def initialState : RuntimeState := ⟨SpielDefaultErrorHandler⟩

/-- `SetErrorHandler(new_error_handler)`. -/
def SetErrorHandler (_st : RuntimeState) (new_error_handler : ErrorHandler) :
    RuntimeState := ⟨new_error_handler⟩

/-- `SpielFatalError(error_msg)`: invoke the active handler; if it
returns, print `Error handler failure - exiting` and `std::exit(1)`. -/
def SpielFatalError (st : RuntimeState) (error_msg : List Char) :
    List (List Char) × Nat :=
  match st.error_handler error_msg with
  | (out, some code) => (out, code)
  | (out, none) => (out ++ [("Error handler failure - exiting").toList], 1)

/-! ## utils.h : SPIEL_CHECK_* macros

Operand expressions are modelled as stateful computations
`σ → σ × α` so that "evaluated exactly once" is observable in the
state; their `operator<<` rendering is an explicit `render` function
(`natStr` for integers).  A macro's dynamic behaviour is its final
state together with the list of messages passed to `SpielFatalError`
(empty on success, a single diagnostic on failure). -/

/-- Decimal rendering of a `Nat`, as `operator<<` produces for
`__LINE__` and integer operands. -/
def natStr (n : Nat) : List Char := (Nat.repr n).toList

/-- `internal::SpielStrCat`: streams every piece in order. -/
def SpielStrCat : List (List Char) → List Char
  | [] => []
  | piece :: rest => piece ++ SpielStrCat rest

/-- The diagnostic built by `SPIEL_CHECK_OP` on failure, mirroring
`SpielStrCat(__FILE__, ":", __LINE__, " ", #x_exp " " #op " " #y_exp,
"\n" #x_exp, " = ", x, ", " #y_exp " = ", y)` (adjacent C string
literals concatenate). -/
def checkOpDiag (file : List Char) (line : Nat)
    (xs os ys xval yval : List Char) : List Char :=
  SpielStrCat [file, (":").toList, natStr line, (" ").toList,
    xs ++ (" ").toList ++ os ++ (" ").toList ++ ys,
    ("\n").toList ++ xs, (" = ").toList, xval,
    (", ").toList ++ ys ++ (" = ").toList, yval]

/-- `SPIEL_CHECK_OP(x_exp, op, y_exp)`: evaluate `x_exp` then `y_exp`
once each (`auto x = x_exp; auto y = y_exp;`), and if `!((x) op (y))`
call `SpielFatalError` with the diagnostic. -/
def SPIEL_CHECK_OP {σ α : Type} (st : σ) (x_exp y_exp : σ → σ × α)
    (op : α → α → Bool) (render : α → List Char)
    (file : List Char) (line : Nat) (xs os ys : List Char) :
    σ × List (List Char) :=
  let r1 := x_exp st
  let x := r1.2
  let r2 := y_exp r1.1
  let y := r2.2
  if op x y then (r2.1, [])
  else (r2.1, [checkOpDiag file line xs os ys (render x) (render y)])

/-- `SPIEL_CHECK_EQ(x, y)` is `SPIEL_CHECK_OP(x, ==, y)`. -/
def SPIEL_CHECK_EQ {σ α : Type} [BEq α] (st : σ) (x_exp y_exp : σ → σ × α)
    (render : α → List Char) (file : List Char) (line : Nat)
    (xs ys : List Char) : σ × List (List Char) :=
  SPIEL_CHECK_OP st x_exp y_exp (fun a b => a == b) render file line
    xs ("==").toList ys

/-- `SPIEL_CHECK_NE(x, y)` is `SPIEL_CHECK_OP(x, !=, y)`. -/
def SPIEL_CHECK_NE {σ α : Type} [BEq α] (st : σ) (x_exp y_exp : σ → σ × α)
    (render : α → List Char) (file : List Char) (line : Nat)
    (xs ys : List Char) : σ × List (List Char) :=
  SPIEL_CHECK_OP st x_exp y_exp (fun a b => !(a == b)) render file line
    xs ("!=").toList ys

/-- `SPIEL_CHECK_LT(x, y)` is `SPIEL_CHECK_OP(x, <, y)`. -/
def SPIEL_CHECK_LT {σ α : Type} [LT α]
    [DecidableRel ((· < ·) : α → α → Prop)]
    (st : σ) (x_exp y_exp : σ → σ × α)
    (render : α → List Char) (file : List Char) (line : Nat)
    (xs ys : List Char) : σ × List (List Char) :=
  SPIEL_CHECK_OP st x_exp y_exp (fun a b => decide (a < b)) render file line
    xs ("<").toList ys

/-- `SPIEL_CHECK_LE(x, y)` is `SPIEL_CHECK_OP(x, <=, y)`. -/
def SPIEL_CHECK_LE {σ α : Type} [LE α]
    [DecidableRel ((· ≤ ·) : α → α → Prop)]
    (st : σ) (x_exp y_exp : σ → σ × α)
    (render : α → List Char) (file : List Char) (line : Nat)
    (xs ys : List Char) : σ × List (List Char) :=
  SPIEL_CHECK_OP st x_exp y_exp (fun a b => decide (a ≤ b)) render file line
    xs ("<=").toList ys

/-- `SPIEL_CHECK_GT(x, y)` is `SPIEL_CHECK_OP(x, >, y)`. -/
def SPIEL_CHECK_GT {σ α : Type} [LT α]
    [DecidableRel ((· < ·) : α → α → Prop)]
    (st : σ) (x_exp y_exp : σ → σ × α)
    (render : α → List Char) (file : List Char) (line : Nat)
    (xs ys : List Char) : σ × List (List Char) :=
  SPIEL_CHECK_OP st x_exp y_exp (fun a b => decide (b < a)) render file line
    xs (">").toList ys

/-- `SPIEL_CHECK_GE(x, y)` is `SPIEL_CHECK_OP(x, >=, y)`. -/
def SPIEL_CHECK_GE {σ α : Type} [LE α]
    [DecidableRel ((· ≤ ·) : α → α → Prop)]
    (st : σ) (x_exp y_exp : σ → σ × α)
    (render : α → List Char) (file : List Char) (line : Nat)
    (xs ys : List Char) : σ × List (List Char) :=
  SPIEL_CHECK_OP st x_exp y_exp (fun a b => decide (b ≤ a)) render file line
    xs (">=").toList ys

/-- The diagnostic built by `SPIEL_CHECK_TRUE` on failure:
`SpielStrCat(__FILE__, ":", __LINE__, " CHECK_TRUE(", #x, ")")`. -/
def checkTrueDiag (file : List Char) (line : Nat) (xs : List Char) :
    List Char :=
  SpielStrCat [file, (":").toList, natStr line, (" CHECK_TRUE(").toList,
    xs, (")").toList]

/-- The diagnostic built by `SPIEL_CHECK_FALSE` on failure:
`SpielStrCat(__FILE__, ":", __LINE__, " CHECK_FALSE(", #x, ")")`. -/
def checkFalseDiag (file : List Char) (line : Nat) (xs : List Char) :
    List Char :=
  SpielStrCat [file, (":").toList, natStr line, (" CHECK_FALSE(").toList,
    xs, (")").toList]

/-- `SPIEL_CHECK_TRUE(x)`: `while (!(x)) SpielFatalError(...)`; the
condition is evaluated once — `SpielFatalError` is `[[noreturn]]`, so
the loop body runs at most once and the condition is never
re-tested. -/
def SPIEL_CHECK_TRUE {σ : Type} (st : σ) (x_exp : σ → σ × Bool)
    (file : List Char) (line : Nat) (xs : List Char) :
    σ × List (List Char) :=
  let r := x_exp st
  if r.2 then (r.1, []) else (r.1, [checkTrueDiag file line xs])

/-- `SPIEL_CHECK_FALSE(x)`: `while (x) SpielFatalError(...)`. -/
def SPIEL_CHECK_FALSE {σ : Type} (st : σ) (x_exp : σ → σ × Bool)
    (file : List Char) (line : Nat) (xs : List Char) :
    σ × List (List Char) :=
  let r := x_exp st
  if r.2 then (r.1, [checkFalseDiag file line xs]) else (r.1, [])

/-! ## utils.h : SPIEL_DCHECK_* (conditional compilation)

`ndebug = true` models a Release build (`NDEBUG` defined): the macro
expands to nothing, so the state is untouched (operands are not
evaluated).  `ndebug = false` models a Debug build: the macro expands
to the corresponding always-on check. -/

/-- `SPIEL_DCHECK_OP` under both build configurations. -/
def SPIEL_DCHECK_OP {σ α : Type} (ndebug : Bool) (st : σ)
    (x_exp y_exp : σ → σ × α) (op : α → α → Bool) (render : α → List Char)
    (file : List Char) (line : Nat) (xs os ys : List Char) :
    σ × List (List Char) :=
  if ndebug then (st, [])
  else SPIEL_CHECK_OP st x_exp y_exp op render file line xs os ys

/-- `SPIEL_DCHECK_TRUE` under both build configurations. -/
def SPIEL_DCHECK_TRUE {σ : Type} (ndebug : Bool) (st : σ)
    (x_exp : σ → σ × Bool) (file : List Char) (line : Nat)
    (xs : List Char) : σ × List (List Char) :=
  if ndebug then (st, []) else SPIEL_CHECK_TRUE st x_exp file line xs

/-- `SPIEL_DCHECK_FALSE` under both build configurations. -/
def SPIEL_DCHECK_FALSE {σ : Type} (ndebug : Bool) (st : σ)
    (x_exp : σ → σ × Bool) (file : List Char) (line : Nat)
    (xs : List Char) : σ × List (List Char) :=
  if ndebug then (st, []) else SPIEL_CHECK_FALSE st x_exp file line xs

/-- The `SPIEL_DCHECK_*` macro names defined at utils.h:133-148. -/
inductive DcheckName
  | dOp | dFn2 | dFn3 | dGe | dGt | dLe | dLt | dEq | dNe
  | dProb | dFloatEq | dFloatNear | dTrue | dFalse
deriving DecidableEq

/-- The `SPIEL_CHECK_*` macro names defined in utils.h. -/
inductive CheckName
  | cOp | cFn2 | cFn3 | cGe | cGt | cLe | cLt | cEq | cNe
  | cProb | cProbTolerance | cTrue | cFalse
deriving DecidableEq

/-- What a `SPIEL_DCHECK_*` invocation becomes after preprocessing. -/
inductive Expansion
  /-- the named always-on `SPIEL_CHECK_*` macro defined in utils.h -/
  | check (c : CheckName)
  /-- the invocation's own macro name, left unexpanded: the C
  preprocessor never re-expands a macro inside its own expansion, so
  the token survives as a call to an undefined identifier -/
  | self
  /-- a macro name that has no definition in utils.h -/
  | other (s : List Char)
  /-- nothing: the invocation disappears -/
  | empty
deriving DecidableEq

/-- One-step expansion of each `SPIEL_DCHECK_*` macro in a Debug build
(`NDEBUG` undefined), transcribed from utils.h:133-148.  Note
utils.h:143 defines `SPIEL_DCHECK_PROB(x)` as `SPIEL_DCHECK_PROB(x)`
— itself, not `SPIEL_CHECK_PROB(x)`. -/
def debugExpansion : DcheckName → Expansion
  | .dOp => .check .cOp
  | .dFn2 => .check .cFn2
  | .dFn3 => .check .cFn3
  | .dGe => .check .cGe
  | .dGt => .check .cGt
  | .dLe => .check .cLe
  | .dLt => .check .cLt
  | .dEq => .check .cEq
  | .dNe => .check .cNe
  | .dProb => .self
  | .dFloatEq => .other ("SPIEL_CHECK_FLOAT_EQ").toList
  | .dFloatNear => .other ("SPIEL_CHECK_FLOAT_NEAR").toList
  | .dTrue => .check .cTrue
  | .dFalse => .check .cFalse

/-- Expansion of each `SPIEL_DCHECK_*` macro in a Release build
(`NDEBUG` defined), transcribed from utils.h:153-166: every one is
empty. -/
def releaseExpansion : DcheckName → Expansion := fun _ => .empty

/-- The always-on macro whose name corresponds to each debug-only
macro (`SPIEL_DCHECK_FOO` ↔ `SPIEL_CHECK_FOO`), where it exists in
utils.h. -/
def correspondingCheck : DcheckName → Option CheckName
  | .dOp => some .cOp
  | .dFn2 => some .cFn2
  | .dFn3 => some .cFn3
  | .dGe => some .cGe
  | .dGt => some .cGt
  | .dLe => some .cLe
  | .dLt => some .cLt
  | .dEq => some .cEq
  | .dNe => some .cNe
  | .dProb => some .cProb
  | .dFloatEq => none
  | .dFloatNear => none
  | .dTrue => some .cTrue
  | .dFalse => some .cFalse

/-! ## logger.h : FileLogger::Print -/

/-- `FileLogger::Print(str)`: write `"[" + time + "] " + str + "\n"`
to the log file, then `Flush()`.  The wall-clock timestamp
(`GetCurrentTime()`) is an input of the model. -/
def FileLogger.Print (f : file.File) (time str : List Char) : file.File :=
  let f1 := (file.File.Write f
    (("[").toList ++ time ++ ("] ").toList ++ str ++ ("\n").toList)).1
  (file.File.Flush f1).1

/-! ### sanity lemmas for the search helpers -/

theorem isSubAt_append (p b : List Char) : isSubAt p (p ++ b) = true := by
  induction p with
  | nil => rfl
  | cons c p ih => simp [isSubAt, ih]

theorem occursIn_of_isSubAt (p l : List Char) (h : isSubAt p l = true) :
    occursIn p l = true := by
  cases l with
  | nil => cases p with
    | nil => rfl
    | cons c p => simp [isSubAt] at h
  | cons c l => simp [occursIn, h]

theorem occursIn_cons (p : List Char) (c : Char) (l : List Char)
    (h : occursIn p l = true) : occursIn p (c :: l) = true := by
  simp [occursIn, h]

theorem occursIn_append_left (a p l : List Char) (h : occursIn p l = true) :
    occursIn p (a ++ l) = true := by
  induction a with
  | nil => simpa using h
  | cons c a ih => exact occursIn_cons p c (a ++ l) ih

theorem occursIn_part (p a b : List Char) : occursIn p (a ++ (p ++ b)) = true :=
  occursIn_append_left a p (p ++ b)
    (occursIn_of_isSubAt p (p ++ b) (isSubAt_append p b))

/-! ## Claim C1 -/

/-- Claim C1: the variadic `Logger::Print` substitutes each literal
`\x7b\x7d` token in the format, left to right, with the string
representation of the corresponding positional argument; trailing
tokens are left as literal text when the arguments run out, and
surplus arguments are silently dropped when the tokens run out.  In
particular `Print("\x7b\x7d plus \x7b\x7d is \x7b\x7d", 1, 1, 2)`
yields `1 plus 1 is 2`, `Print("\x7b\x7d \x7b\x7d", 1)` yields
`1 \x7b\x7d`, and `Print("\x7b\x7d", 1, 2)` yields `1` (ignoring the
timestamp prefix added by the single-string `Print`). -/
theorem C1_StrFormat :
    (∀ format : List Char, StrFormat format [] = format) ∧
    (∀ (format value : List Char) (args : List (List Char)) (pos : Nat),
        findBrace format = some pos →
        StrFormat format (value :: args) =
          format.take pos ++ value ++ StrFormat (format.drop (pos + 2)) args) ∧
    (∀ (format : List Char) (args : List (List Char)),
        findBrace format = none → StrFormat format args = format) ∧
    StrFormat ("\x7b\x7d plus \x7b\x7d is \x7b\x7d").toList
        [("1").toList, ("1").toList, ("2").toList] = ("1 plus 1 is 2").toList ∧
    StrFormat ("\x7b\x7d \x7b\x7d").toList [("1").toList] = ("1 \x7b\x7d").toList ∧
    StrFormat ("\x7b\x7d").toList [("1").toList, ("2").toList] = ("1").toList := by
  refine ⟨fun format => rfl, ?_, ?_, rfl, rfl, rfl⟩
  · intro format value args pos h
    simp [StrFormat, h]
  · intro format args h
    cases args with
    | nil => rfl
    | cons v args => simp [StrFormat, h]

/-- Witness for C1: the hypotheses of the general parts hold at
concrete inputs and the theorem computes the expected outputs there. -/
theorem C1_StrFormat_witness :
    (findBrace ("a\x7b\x7db").toList = some 1 ∧
     StrFormat ("a\x7b\x7db").toList [("z").toList] = ("azb").toList) ∧
    (findBrace ("ab").toList = none ∧
     StrFormat ("ab").toList [("z").toList] = ("ab").toList) :=
  ⟨⟨rfl, (C1_StrFormat.2.1 ("a\x7b\x7db").toList ("z").toList [] 1 rfl).trans rfl⟩,
   ⟨rfl, C1_StrFormat.2.2.1 ("ab").toList [("z").toList] rfl⟩⟩

/-! ### the Mkdirs loop walks exactly the spec's prefix sequence -/

theorem file.MkdirsLoop_eq_spec (path : List Char) :
    ∀ (fuel : Nat) (fs : file.FS) (pos : Nat),
      file.MkdirsLoop fs path pos fuel =
        file.CreateDirectoriesSpec fs (file.SubPathsLoop path pos fuel) := by
  intro fuel
  induction fuel with
  | zero =>
    intro fs pos
    unfold file.MkdirsLoop file.SubPathsLoop
    cases h : file.findFirstOf path (pos + 1) with
    | none =>
      cases hs : fs.stat path with
      | none =>
        by_cases hc : fs.canCreate path <;>
          simp [file.CreateDirectoriesSpec, hs, hc]
      | some b => cases b <;> simp [file.CreateDirectoriesSpec, hs]
    | some p => simp [file.CreateDirectoriesSpec]
  | succ fuel ih =>
    intro fs pos
    unfold file.MkdirsLoop file.SubPathsLoop
    cases h : file.findFirstOf path (pos + 1) with
    | none =>
      cases hs : fs.stat path with
      | none =>
        by_cases hc : fs.canCreate path <;>
          simp [file.CreateDirectoriesSpec, hs, hc]
      | some b => cases b <;> simp [file.CreateDirectoriesSpec, hs]
    | some p =>
      cases hs : fs.stat (path.take p) with
      | none =>
        by_cases hc : fs.canCreate (path.take p) <;>
          simp [file.CreateDirectoriesSpec, hs, hc, ih]
      | some b => cases b <;> simp [file.CreateDirectoriesSpec, hs, ih]

theorem file.Mkdirs_eq_spec (fs : file.FS) (path : List Char) :
    file.Mkdirs fs path = file.CreateDirectoriesSpec fs (file.SubPaths path) :=
  file.MkdirsLoop_eq_spec path path.length fs 0

/-! ### after a successful walk every processed prefix is a directory -/

theorem file.create_preserves_dir (fs : file.FS) (p q : List Char)
    (h : fs.stat q = some true) : (fs.create p).stat q = some true := by
  simp only [file.FS.create]
  split <;> simp [h]

theorem file.spec_preserves_dir :
    ∀ (ps : List (List Char)) (fs : file.FS) (q : List Char),
      fs.stat q = some true →
      ((file.CreateDirectoriesSpec fs ps).1).stat q = some true := by
  intro ps
  induction ps with
  | nil => intro fs q h; exact h
  | cons p rest ih =>
    intro fs q h
    unfold file.CreateDirectoriesSpec
    cases hs : fs.stat p with
    | none =>
      by_cases hc : fs.canCreate p
      · simp only [hc, if_true]
        exact ih (fs.create p) q (file.create_preserves_dir fs p q h)
      · simp only [hc, if_false]
        exact h
    | some b =>
      cases b
      · exact h
      · exact ih fs q h

theorem file.spec_success_all_dirs :
    ∀ (ps : List (List Char)) (fs fs' : file.FS),
      file.CreateDirectoriesSpec fs ps = (fs', true) →
      ∀ p ∈ ps, fs'.stat p = some true := by
  intro ps
  induction ps with
  | nil => intro fs fs' h p hp; simp at hp
  | cons p rest ih =>
    intro fs fs' h q hq
    unfold file.CreateDirectoriesSpec at h
    cases hs : fs.stat p with
    | none =>
      rw [hs] at h
      by_cases hc : fs.canCreate p
      · rw [if_pos hc] at h
        rcases List.mem_cons.mp hq with rfl | hq'
        · have hcr : (fs.create q).stat q = some true := by
            simp [file.FS.create]
          have h' : file.CreateDirectoriesSpec (fs.create q) rest = (fs', true) := h
          have hpd := file.spec_preserves_dir rest (fs.create q) q hcr
          rw [h'] at hpd
          exact hpd
        · exact ih (fs.create p) fs' h q hq'
      · rw [if_neg hc] at h
        simp at h
    | some b =>
      cases b
      · rw [hs] at h; simp at h
      · rw [hs] at h
        rcases List.mem_cons.mp hq with rfl | hq'
        · have h' : file.CreateDirectoriesSpec fs rest = (fs', true) := h
          have hpd := file.spec_preserves_dir rest fs q hs
          rw [h'] at hpd
          exact hpd
        · exact ih fs fs' h q hq'

theorem file.spec_all_dirs_noop :
    ∀ (ps : List (List Char)) (fs : file.FS),
      (∀ p ∈ ps, fs.stat p = some true) →
      file.CreateDirectoriesSpec fs ps = (fs, true) := by
  intro ps
  induction ps with
  | nil => intro fs _; rfl
  | cons p rest ih =>
    intro fs h
    unfold file.CreateDirectoriesSpec
    rw [h p (List.mem_cons_self p rest)]
    exact ih fs (fun q hq => h q (List.mem_cons_of_mem p hq))

theorem file.Mkdirs_idempotent (fs fs' : file.FS) (path : List Char)
    (h : file.Mkdirs fs path = (fs', true)) :
    file.Mkdirs fs' path = (fs', true) := by
  rw [file.Mkdirs_eq_spec] at h ⊢
  exact file.spec_all_dirs_noop (file.SubPaths path) fs'
    (file.spec_success_all_dirs (file.SubPaths path) fs fs' h)

/-! ## Claims C2 and C3 -/

/-- Claim C2: `Mkdirs` walks the path from its root splitting on path
separators, and for each prefix: if it already exists as a directory it
continues; if it exists but is not a directory it returns false; else
it attempts to create it, returning false on the first creation error
and leaving already-created prefixes behind.  First conjunct: the loop
is exactly the spec's walk over the prefix sequence.  Second conjunct:
when the component `/tmp/a` exists as a plain file, `Mkdirs` of
`/tmp/a/b` returns false with the filesystem untouched.  Remaining
conjuncts: when the creation of `/tmp/a/b` fails, `Mkdirs` returns
false and the already-created prefix `/tmp/a` is left behind. -/
theorem C2_Mkdirs :
    (∀ (fs : file.FS) (path : List Char),
        file.Mkdirs fs path =
          file.CreateDirectoriesSpec fs (file.SubPaths path)) ∧
    file.Mkdirs file.fsFileComp ("/tmp/a/b").toList = (file.fsFileComp, false) ∧
    (file.Mkdirs file.fsPermComp ("/tmp/a/b").toList).2 = false ∧
    (file.Mkdirs file.fsPermComp ("/tmp/a/b").toList).1.stat ("/tmp/a").toList
      = some true :=
  ⟨file.Mkdirs_eq_spec, rfl, rfl, rfl⟩

/-- Claim C3: on a clean tree, `Mkdirs("/tmp/a/b/c")` creates all three
directory levels and returns true, and running it again on the
now-existing tree also returns true and changes nothing
(idempotence, stated in general in the last conjunct). -/
theorem C3_Mkdirs_idempotent :
    ((file.Mkdirs file.cleanFs ("/tmp/a/b/c").toList).2 = true ∧
     (file.Mkdirs file.cleanFs ("/tmp/a/b/c").toList).1.stat
        ("/tmp/a").toList = some true ∧
     (file.Mkdirs file.cleanFs ("/tmp/a/b/c").toList).1.stat
        ("/tmp/a/b").toList = some true ∧
     (file.Mkdirs file.cleanFs ("/tmp/a/b/c").toList).1.stat
        ("/tmp/a/b/c").toList = some true ∧
     file.Mkdirs (file.Mkdirs file.cleanFs ("/tmp/a/b/c").toList).1
        ("/tmp/a/b/c").toList
       = ((file.Mkdirs file.cleanFs ("/tmp/a/b/c").toList).1, true)) ∧
    (∀ (fs fs' : file.FS) (path : List Char),
        file.Mkdirs fs path = (fs', true) →
        file.Mkdirs fs' path = (fs', true)) :=
  ⟨⟨rfl, rfl, rfl, rfl, rfl⟩,
   fun fs fs' path h => file.Mkdirs_idempotent fs fs' path h⟩

/-- Witness for C3: the general idempotence statement applied to the
concrete clean-tree run. -/
theorem C3_Mkdirs_idempotent_witness :
    file.Mkdirs (file.Mkdirs file.cleanFs ("/tmp/a/b/c").toList).1
        ("/tmp/a/b/c").toList
      = ((file.Mkdirs file.cleanFs ("/tmp/a/b/c").toList).1, true) :=
  C3_Mkdirs_idempotent.2 file.cleanFs
    (file.Mkdirs file.cleanFs ("/tmp/a/b/c").toList).1 ("/tmp/a/b/c").toList rfl

/-! ## Claims C4, C9, C10 -/

/-- Claim C4: writing a byte sequence `s` to a fresh file with
`File::Write` and then reading the file's entire contents with
`File::ReadContents` returns exactly `s`; `ReadContents` repositions
to the start and reads `Length()` bytes, hence (second conjunct)
returns the entire content of any file. -/
theorem C4_write_read_round_trip :
    (∀ s : List Char,
        (file.File.Write file.freshFile s).2 = true ∧
        (file.File.ReadContents (file.File.Write file.freshFile s).1).2 = s) ∧
    (∀ f : file.File, (file.File.ReadContents f).2 = f.data) := by
  constructor
  · intro s
    refine ⟨rfl, ?_⟩
    simp [file.File.Write, file.File.ReadContents, file.File.Seek,
      file.File.Length, file.File.Read, file.freshFile]
  · intro f
    simp [file.File.ReadContents, file.File.Seek, file.File.Length,
      file.File.Read]

/-- Claim C9: for every file and every current offset, `File::Length()`
returns the total byte length of the file (after writing `n` bytes to
a fresh file it returns `n`, and in general it returns the content
length), and it leaves the file's current offset — in fact the whole
file state — unchanged, because it seeks to the end and back,
restoring the original position. -/
theorem C9_Length :
    (∀ s : List Char,
        (file.File.Length (file.File.Write file.freshFile s).1).2 = s.length) ∧
    (∀ f : file.File, (file.File.Length f).2 = f.data.length) ∧
    (∀ f : file.File, (file.File.Length f).1.offset = f.offset) ∧
    (∀ f : file.File, file.File.Length f = (f, f.data.length)) := by
  refine ⟨?_, fun f => rfl, fun f => rfl, fun f => rfl⟩
  intro s
  simp [file.File.Write, file.File.Length, file.freshFile]

/-- Claim C10: every `FileLogger::Print(str)` call appends to the log
file exactly the line `"[" + time + "] " + str + "\n"` and then
immediately flushes, so the line is handed to the OS before `Print`
returns.  The hypothesis says the current offset is at the end of the
file; the third conjunct shows `Print` preserves that invariant, so it
holds throughout the logger's purely sequential writes (it holds at
the freshly opened file). -/
theorem C10_FileLogger_Print (f : file.File) (time str : List Char)
    (h : f.offset = f.data.length) :
    (FileLogger.Print f time str).data =
      f.data ++ (("[").toList ++ time ++ ("] ").toList ++ str ++ ("\n").toList) ∧
    (FileLogger.Print f time str).osData = (FileLogger.Print f time str).data ∧
    (FileLogger.Print f time str).offset =
      (FileLogger.Print f time str).data.length := by
  have key : ∀ (d L : List Char),
      d.take d.length ++ L ++ d.drop (d.length + L.length) = d ++ L := by
    intro d L
    rw [List.take_length, List.drop_eq_nil_of_le (Nat.le_add_right _ _),
      List.append_nil]
  have hdata : (FileLogger.Print f time str).data =
      f.data ++ (("[").toList ++ time ++ ("] ").toList ++ str ++ ("\n").toList) := by
    show (file.File.Flush (file.File.Write f _).1).1.data = _
    simp only [file.File.Flush, file.File.Write]
    rw [h]
    exact key f.data _
  refine ⟨hdata, rfl, ?_⟩
  rw [hdata, List.length_append]
  simp only [FileLogger.Print, file.File.Flush, file.File.Write]
  rw [h]

/-- Witness for C10: one `Print` on a fresh file appends the single
line, the flushed OS content equals the buffered content, and the
offset is again at the end of the file. -/
theorem C10_FileLogger_Print_witness :
    (FileLogger.Print file.freshFile ("t").toList ("hello").toList).data
      = ("[t] hello\n").toList ∧
    (FileLogger.Print file.freshFile ("t").toList ("hello").toList).osData
      = (FileLogger.Print file.freshFile ("t").toList ("hello").toList).data ∧
    (FileLogger.Print file.freshFile ("t").toList ("hello").toList).offset
      = (FileLogger.Print file.freshFile ("t").toList
          ("hello").toList).data.length :=
  ⟨(C10_FileLogger_Print file.freshFile ("t").toList ("hello").toList rfl).1.trans
      rfl,
   (C10_FileLogger_Print file.freshFile ("t").toList ("hello").toList rfl).2.1,
   (C10_FileLogger_Print file.freshFile ("t").toList ("hello").toList rfl).2.2⟩

/-! ## Claim C5 -/

/-- Claim C5: `SpielFatalError` invokes the handler active at the
moment of the call (the one most recently installed by
`SetErrorHandler`), passing it the message; if that handler terminates
the process, that is the outcome; if it returns instead, the runtime
prints `Error handler failure - exiting` and terminates with exit
code 1, so the call never returns normally (its result always carries
an exit code).  The active handler is initially
`SpielDefaultErrorHandler`, which prints `Spiel Fatal Error: <msg>` to
standard error and exits with code 1. -/
theorem C5_SpielFatalError :
    (∀ (st : RuntimeState) (h : ErrorHandler) (msg : List Char),
        (SetErrorHandler st h).error_handler = h ∧
        SpielFatalError (SetErrorHandler st h) msg =
          (match h msg with
           | (out, some code) => (out, code)
           | (out, none) =>
             (out ++ [("Error handler failure - exiting").toList], 1))) ∧
    (∀ (st : RuntimeState) (msg : List Char) (out : List (List Char))
        (code : Nat),
        st.error_handler msg = (out, some code) →
        SpielFatalError st msg = (out, code)) ∧
    (∀ (st : RuntimeState) (msg : List Char) (out : List (List Char)),
        st.error_handler msg = (out, none) →
        SpielFatalError st msg =
          (out ++ [("Error handler failure - exiting").toList], 1)) ∧
    initialState.error_handler = SpielDefaultErrorHandler ∧
    (∀ msg : List Char,
        SpielDefaultErrorHandler msg =
          ([("Spiel Fatal Error: ").toList ++ msg], some 1)) := by
  refine ⟨fun st h msg => ⟨rfl, rfl⟩, ?_, ?_, rfl, fun msg => rfl⟩
  · intro st msg out code h
    simp [SpielFatalError, h]
  · intro st msg out h
    simp [SpielFatalError, h]

/-- Witness for C5: a custom handler that returns leads to the
secondary notice and unconditional exit code 1. -/
theorem C5_SpielFatalError_witness :
    SpielFatalError (SetErrorHandler initialState (fun _ => ([], none)))
        ("boom").toList
      = ([("Error handler failure - exiting").toList], 1) :=
  C5_SpielFatalError.2.2.1
    (SetErrorHandler initialState (fun _ => ([], none))) ("boom").toList [] rfl

theorem occursIn_head (p b : List Char) : occursIn p (p ++ b) = true :=
  occursIn_of_isSubAt p (p ++ b) (isSubAt_append p b)

/-! ## Claim C6 -/

/-- Claim C6: every comparison assertion macro (equal, not-equal,
less, less-or-equal, greater, greater-or-equal) evaluates each of its
two operand expressions exactly once, and on failure calls
`SpielFatalError` exactly once with a diagnostic containing the source
location, both operand expressions as written, and both evaluated
values.  Conjuncts: (1) instrumented operands are each evaluated once,
for every comparison `op`; (2) on failure the macro passes exactly one
message — the `SpielStrCat` diagnostic — to `SpielFatalError`; (3) on
success it passes none; (4) the diagnostic contains the file, the
line, both literal expressions and both rendered values; (5)-(10) each
of EQ/NE/LT/LE/GT/GE is an instance of `SPIEL_CHECK_OP` with its
comparison and its literal operator text; (11)-(12) the concrete
assertion comparing `2 == 3` produces exactly one message and that
message contains `2` and `3` (each both as literal expression and as
rendered value). -/
theorem C6_check_op_macros :
    (∀ (α : Type) (xv yv : α) (op : α → α → Bool) (render : α → List Char)
        (fl : List Char) (line : Nat) (xs os ys : List Char),
        (SPIEL_CHECK_OP (σ := Nat × Nat) (0, 0)
            (fun s => ((s.1 + 1, s.2), xv)) (fun s => ((s.1, s.2 + 1), yv))
            op render fl line xs os ys).1 = (1, 1)) ∧
    (∀ (σ α : Type) (st : σ) (x_exp y_exp : σ → σ × α) (op : α → α → Bool)
        (render : α → List Char) (fl : List Char) (line : Nat)
        (xs os ys : List Char),
        op (x_exp st).2 (y_exp (x_exp st).1).2 = false →
        (SPIEL_CHECK_OP st x_exp y_exp op render fl line xs os ys).2 =
          [checkOpDiag fl line xs os ys (render (x_exp st).2)
            (render (y_exp (x_exp st).1).2)]) ∧
    (∀ (σ α : Type) (st : σ) (x_exp y_exp : σ → σ × α) (op : α → α → Bool)
        (render : α → List Char) (fl : List Char) (line : Nat)
        (xs os ys : List Char),
        op (x_exp st).2 (y_exp (x_exp st).1).2 = true →
        (SPIEL_CHECK_OP st x_exp y_exp op render fl line xs os ys).2 = []) ∧
    (∀ (fl : List Char) (line : Nat) (xs os ys xval yval : List Char),
        occursIn fl (checkOpDiag fl line xs os ys xval yval) = true ∧
        occursIn (natStr line) (checkOpDiag fl line xs os ys xval yval) = true ∧
        occursIn xs (checkOpDiag fl line xs os ys xval yval) = true ∧
        occursIn ys (checkOpDiag fl line xs os ys xval yval) = true ∧
        occursIn xval (checkOpDiag fl line xs os ys xval yval) = true ∧
        occursIn yval (checkOpDiag fl line xs os ys xval yval) = true) ∧
    (∀ (σ α : Type) [inst : BEq α] (st : σ) (x_exp y_exp : σ → σ × α)
        (render : α → List Char) (fl : List Char) (line : Nat)
        (xs ys : List Char),
        SPIEL_CHECK_EQ st x_exp y_exp render fl line xs ys =
          SPIEL_CHECK_OP st x_exp y_exp (fun a b => a == b) render fl line
            xs ("==").toList ys) ∧
    (∀ (σ α : Type) [inst : BEq α] (st : σ) (x_exp y_exp : σ → σ × α)
        (render : α → List Char) (fl : List Char) (line : Nat)
        (xs ys : List Char),
        SPIEL_CHECK_NE st x_exp y_exp render fl line xs ys =
          SPIEL_CHECK_OP st x_exp y_exp (fun a b => !(a == b)) render fl line
            xs ("!=").toList ys) ∧
    (∀ (σ α : Type) [instl : LT α]
        [instd : DecidableRel ((· < ·) : α → α → Prop)] (st : σ)
        (x_exp y_exp : σ → σ × α) (render : α → List Char) (fl : List Char)
        (line : Nat) (xs ys : List Char),
        SPIEL_CHECK_LT st x_exp y_exp render fl line xs ys =
          SPIEL_CHECK_OP st x_exp y_exp (fun a b => decide (a < b)) render
            fl line xs ("<").toList ys) ∧
    (∀ (σ α : Type) [instl : LE α]
        [instd : DecidableRel ((· ≤ ·) : α → α → Prop)] (st : σ)
        (x_exp y_exp : σ → σ × α) (render : α → List Char) (fl : List Char)
        (line : Nat) (xs ys : List Char),
        SPIEL_CHECK_LE st x_exp y_exp render fl line xs ys =
          SPIEL_CHECK_OP st x_exp y_exp (fun a b => decide (a ≤ b)) render
            fl line xs ("<=").toList ys) ∧
    (∀ (σ α : Type) [instl : LT α]
        [instd : DecidableRel ((· < ·) : α → α → Prop)] (st : σ)
        (x_exp y_exp : σ → σ × α) (render : α → List Char) (fl : List Char)
        (line : Nat) (xs ys : List Char),
        SPIEL_CHECK_GT st x_exp y_exp render fl line xs ys =
          SPIEL_CHECK_OP st x_exp y_exp (fun a b => decide (b < a)) render
            fl line xs (">").toList ys) ∧
    (∀ (σ α : Type) [instl : LE α]
        [instd : DecidableRel ((· ≤ ·) : α → α → Prop)] (st : σ)
        (x_exp y_exp : σ → σ × α) (render : α → List Char) (fl : List Char)
        (line : Nat) (xs ys : List Char),
        SPIEL_CHECK_GE st x_exp y_exp render fl line xs ys =
          SPIEL_CHECK_OP st x_exp y_exp (fun a b => decide (b ≤ a)) render
            fl line xs (">=").toList ys) ∧
    (SPIEL_CHECK_EQ (σ := Unit) () (fun s => (s, (2 : Nat)))
        (fun s => (s, (3 : Nat))) natStr ("test.cc").toList 10
        ("2").toList ("3").toList).2.length = 1 ∧
    (∀ d ∈ (SPIEL_CHECK_EQ (σ := Unit) () (fun s => (s, (2 : Nat)))
        (fun s => (s, (3 : Nat))) natStr ("test.cc").toList 10
        ("2").toList ("3").toList).2,
      occursIn ("2").toList d = true ∧ occursIn ("3").toList d = true) := by
  refine ⟨?_, ?_, ?_, ?_, fun σ α inst st xe ye r fl l xs ys => rfl,
    fun σ α inst st xe ye r fl l xs ys => rfl,
    fun σ α il id_ st xe ye r fl l xs ys => rfl,
    fun σ α il id_ st xe ye r fl l xs ys => rfl,
    fun σ α il id_ st xe ye r fl l xs ys => rfl,
    fun σ α il id_ st xe ye r fl l xs ys => rfl,
    by decide, by decide⟩
  · intro α xv yv op render fl line xs os ys
    cases h : op xv yv <;> simp [SPIEL_CHECK_OP, h]
  · intro σ α st x_exp y_exp op render fl line xs os ys h
    simp [SPIEL_CHECK_OP, h]
  · intro σ α st x_exp y_exp op render fl line xs os ys h
    simp [SPIEL_CHECK_OP, h]
  · intro fl line xs os ys xval yval
    refine ⟨?_, ?_, ?_, ?_, ?_, ?_⟩ <;>
      · simp only [checkOpDiag, SpielStrCat, List.append_assoc]
        repeat
          first
          | exact occursIn_head _ _
          | apply occursIn_append_left

/-- Witness for C6: the failure case of `SPIEL_CHECK_OP` at the
concrete comparison `2 == 3` produces exactly the diagnostic. -/
theorem C6_check_op_macros_witness :
    (SPIEL_CHECK_OP (σ := Unit) () (fun s => (s, (2 : Nat)))
        (fun s => (s, (3 : Nat))) (fun a b => a == b) natStr
        ("test.cc").toList 10 ("2").toList ("==").toList ("3").toList).2 =
      [checkOpDiag ("test.cc").toList 10 ("2").toList ("==").toList
        ("3").toList (natStr 2) (natStr 3)] :=
  C6_check_op_macros.2.1 Unit Nat () (fun s => (s, 2)) (fun s => (s, 3))
    (fun a b => a == b) natStr ("test.cc").toList 10 ("2").toList
    ("==").toList ("3").toList rfl

/-! ## Claim C7 (corrected) -/

/-- Counterexample to C7 as stated: the claim says the boolean
assertion's failure diagnostic contains the evaluated value.  On the
concrete failing `SPIEL_CHECK_TRUE(flag)` at `a.cc:3`, the single
message passed to `SpielFatalError` is
`a.cc:3 CHECK_TRUE(flag)`, and neither rendering of the evaluated
value `false` (`0` from `operator<<`, or `false`) occurs in it: the
macro (utils.h:119-122) stringifies only `#x`, never `x`. -/
theorem C7_check_bool_counterexample :
    (SPIEL_CHECK_TRUE (σ := Unit) () (fun s => (s, false)) ("a.cc").toList 3
        ("flag").toList).2 =
      [checkTrueDiag ("a.cc").toList 3 ("flag").toList] ∧
    occursIn ("0").toList
      (checkTrueDiag ("a.cc").toList 3 ("flag").toList) = false ∧
    occursIn ("false").toList
      (checkTrueDiag ("a.cc").toList 3 ("flag").toList) = false := by
  refine ⟨rfl, ?_, ?_⟩ <;> decide

/-- Claim C7 as amended: `SPIEL_CHECK_TRUE` and `SPIEL_CHECK_FALSE`
evaluate their condition exactly once and, on failure, call
`SpielFatalError` exactly once with a diagnostic containing the source
location and the literal expression as written — but not the evaluated
value, which the macros do not stringify. -/
theorem C7_check_bool :
    (∀ (xv : Bool) (fl : List Char) (line : Nat) (xs : List Char),
        (SPIEL_CHECK_TRUE (σ := Nat) 0 (fun s => (s + 1, xv)) fl line xs).1
            = 1 ∧
        (SPIEL_CHECK_FALSE (σ := Nat) 0 (fun s => (s + 1, xv)) fl line xs).1
            = 1) ∧
    (∀ (σ : Type) (st : σ) (x_exp : σ → σ × Bool) (fl : List Char)
        (line : Nat) (xs : List Char),
        (x_exp st).2 = false →
        (SPIEL_CHECK_TRUE st x_exp fl line xs).2 =
          [checkTrueDiag fl line xs]) ∧
    (∀ (σ : Type) (st : σ) (x_exp : σ → σ × Bool) (fl : List Char)
        (line : Nat) (xs : List Char),
        (x_exp st).2 = true →
        (SPIEL_CHECK_TRUE st x_exp fl line xs).2 = []) ∧
    (∀ (σ : Type) (st : σ) (x_exp : σ → σ × Bool) (fl : List Char)
        (line : Nat) (xs : List Char),
        (x_exp st).2 = true →
        (SPIEL_CHECK_FALSE st x_exp fl line xs).2 =
          [checkFalseDiag fl line xs]) ∧
    (∀ (σ : Type) (st : σ) (x_exp : σ → σ × Bool) (fl : List Char)
        (line : Nat) (xs : List Char),
        (x_exp st).2 = false →
        (SPIEL_CHECK_FALSE st x_exp fl line xs).2 = []) ∧
    (∀ (fl : List Char) (line : Nat) (xs : List Char),
        occursIn fl (checkTrueDiag fl line xs) = true ∧
        occursIn (natStr line) (checkTrueDiag fl line xs) = true ∧
        occursIn xs (checkTrueDiag fl line xs) = true ∧
        occursIn fl (checkFalseDiag fl line xs) = true ∧
        occursIn (natStr line) (checkFalseDiag fl line xs) = true ∧
        occursIn xs (checkFalseDiag fl line xs) = true) := by
  refine ⟨?_, ?_, ?_, ?_, ?_, ?_⟩
  · intro xv fl line xs
    cases xv <;> exact ⟨rfl, rfl⟩
  · intro σ st x_exp fl line xs h
    simp [SPIEL_CHECK_TRUE, h]
  · intro σ st x_exp fl line xs h
    simp [SPIEL_CHECK_TRUE, h]
  · intro σ st x_exp fl line xs h
    simp [SPIEL_CHECK_FALSE, h]
  · intro σ st x_exp fl line xs h
    simp [SPIEL_CHECK_FALSE, h]
  · intro fl line xs
    refine ⟨?_, ?_, ?_, ?_, ?_, ?_⟩ <;>
      · simp only [checkTrueDiag, checkFalseDiag, SpielStrCat,
          List.append_assoc]
        repeat
          first
          | exact occursIn_head _ _
          | apply occursIn_append_left

/-- Witness for C7: the failing boolean check at a concrete input
emits exactly its diagnostic. -/
theorem C7_check_bool_witness :
    (SPIEL_CHECK_TRUE (σ := Unit) () (fun s => (s, false)) ("b.cc").toList 7
        ("ok").toList).2 = [checkTrueDiag ("b.cc").toList 7 ("ok").toList] :=
  C7_check_bool.2.1 Unit () (fun s => (s, false)) ("b.cc").toList 7
    ("ok").toList rfl

/-! ## Claim C8 (code bug at utils.h:143) -/

/-- Claim C8 names a code bug: in a Debug build every `SPIEL_DCHECK_*`
macro should expand to the corresponding `SPIEL_CHECK_*` macro, and in
a Release build to nothing.  utils.h:143 defines
`SPIEL_DCHECK_PROB(x)` as `SPIEL_DCHECK_PROB(x)` — itself — so in a
Debug build the invocation survives preprocessing as a call to an
undefined identifier instead of becoming `SPIEL_CHECK_PROB(x)`: the
first two conjuncts exhibit the divergence, the third records the
intended correspondent.  The remaining conjuncts show the rest of the
claim holds: every other family member expands to its corresponding
always-on macro in Debug, every member expands to nothing in Release,
and (behaviourally) the modelled Debug variants are identical to the
always-on checks while the Release variants leave the state untouched,
evaluating no operands. -/
theorem C8_dcheck_family :
    debugExpansion DcheckName.dProb = Expansion.self ∧
    decide (debugExpansion DcheckName.dProb
        = Expansion.check CheckName.cProb) = false ∧
    correspondingCheck DcheckName.dProb = some CheckName.cProb ∧
    debugExpansion DcheckName.dOp = Expansion.check CheckName.cOp ∧
    debugExpansion DcheckName.dFn2 = Expansion.check CheckName.cFn2 ∧
    debugExpansion DcheckName.dFn3 = Expansion.check CheckName.cFn3 ∧
    debugExpansion DcheckName.dGe = Expansion.check CheckName.cGe ∧
    debugExpansion DcheckName.dGt = Expansion.check CheckName.cGt ∧
    debugExpansion DcheckName.dLe = Expansion.check CheckName.cLe ∧
    debugExpansion DcheckName.dLt = Expansion.check CheckName.cLt ∧
    debugExpansion DcheckName.dEq = Expansion.check CheckName.cEq ∧
    debugExpansion DcheckName.dNe = Expansion.check CheckName.cNe ∧
    debugExpansion DcheckName.dTrue = Expansion.check CheckName.cTrue ∧
    debugExpansion DcheckName.dFalse = Expansion.check CheckName.cFalse ∧
    (∀ d : DcheckName, releaseExpansion d = Expansion.empty) ∧
    (∀ (σ α : Type) (st : σ) (x_exp y_exp : σ → σ × α) (op : α → α → Bool)
        (render : α → List Char) (fl : List Char) (line : Nat)
        (xs os ys : List Char),
        SPIEL_DCHECK_OP false st x_exp y_exp op render fl line xs os ys =
          SPIEL_CHECK_OP st x_exp y_exp op render fl line xs os ys ∧
        SPIEL_DCHECK_OP true st x_exp y_exp op render fl line xs os ys =
          (st, [])) ∧
    (∀ (σ : Type) (st : σ) (x_exp : σ → σ × Bool) (fl : List Char)
        (line : Nat) (xs : List Char),
        SPIEL_DCHECK_TRUE false st x_exp fl line xs =
          SPIEL_CHECK_TRUE st x_exp fl line xs ∧
        SPIEL_DCHECK_TRUE true st x_exp fl line xs = (st, []) ∧
        SPIEL_DCHECK_FALSE false st x_exp fl line xs =
          SPIEL_CHECK_FALSE st x_exp fl line xs ∧
        SPIEL_DCHECK_FALSE true st x_exp fl line xs = (st, [])) :=
  ⟨rfl, rfl, rfl, rfl, rfl, rfl, rfl, rfl, rfl, rfl, rfl, rfl, rfl, rfl,
   fun _ => rfl,
   fun σ α st x_exp y_exp op render fl line xs os ys => ⟨rfl, rfl⟩,
   fun σ st x_exp fl line xs => ⟨rfl, rfl, rfl, rfl⟩⟩
